import Mathlib

/-!
konjure: the Berglas transformer bridge and the "remove generator" edit command.

A shallow embedding of

* `plugin/berglas/transformer/berglas_transformer.go`
  (`plugin.Config`, `plugin.Transform`, `mutateResourceAs`, `toSchemaGvk`, `podTemplate`), and
* `internal/kustomize/edit/removegenerator.go`
  (`Validate`, `RunRemoveGenerator`, `globPatterns`).

Code that lives outside these two files (the Kubernetes scheme, the JSON codec, package
`reflect`, the Berglas mutator, the kustomization file, `filepath.Match`) is either modelled
at the level of detail the two files observe, or taken as a parameter.
-/

namespace Konjure

/-! Go values as seen through package `reflect`. -/

/-- Errors are opaque messages. -/
abbrev Error := String

/-- A run-time panic, with its message. -/
structure Panic where
  msg : String
  deriving DecidableEq, Repr

/-- Go values, as far as `podTemplate` can tell them apart.  A struct carries the name of
its type and its fields as `FieldByName` sees them (selector name, value); a pointer is nil
or points to a value; an interface is nil or holds a dynamic value; every other kind of
value (strings, numbers, slices, maps, ...) is `basic`. -/
inductive GoValue where
  | basic (typ : String) (repr : String)
  | struct (typ : String) (fields : List (String × GoValue))
  | ptr (target : Option GoValue)
  | iface (dyn : Option GoValue)
  deriving Repr

/-- The kinds of `reflect.Kind` that matter here. -/
inductive Kind where
  | Invalid
  | Struct
  | Ptr
  | Interface
  | Other
  deriving DecidableEq, Repr

/-- A `reflect.Value`: `val = none` is the zero Value; `flagAddr` and `flagRO` are the
flags behind `CanAddr` and `CanInterface`; `path` records the selectors that lead from the
pointee of the inspected object to this value. -/
structure Value where
  val : Option GoValue
  flagAddr : Bool
  flagRO : Bool
  path : List String

/-- The zero `reflect.Value`. -/
def Value.zero : Value := ⟨none, false, false, []⟩

/-- `reflect.ValueOf(i)`: the dynamic value of the interface `i`, the zero Value for a nil
interface.  The result is neither addressable nor read-only. -/
def ValueOf (i : GoValue) : Value :=
  match i with
  | .iface none => Value.zero
  | .iface (some x) => ⟨some x, false, false, []⟩
  | x => ⟨some x, false, false, []⟩

/-- `Value.Kind`: `Invalid` for the zero Value. -/
def Value.Kind (v : Value) : Kind :=
  match v.val with
  | none => .Invalid
  | some (.struct _ _) => .Struct
  | some (.ptr _) => .Ptr
  | some (.iface _) => .Interface
  | some (.basic _ _) => .Other

/-- `Value.CanInterface`: panics on the zero Value, otherwise tells whether the value was
reached without going through an unexported field. -/
def Value.CanInterface (v : Value) : Except Panic Bool :=
  match v.val with
  | none => .error ⟨"reflect: call of reflect.Value.CanInterface on zero Value"⟩
  | some _ => .ok (!v.flagRO)

/-- `Value.Elem`: the value an interface holds or a pointer points to (the zero Value when
nil); the pointee of a pointer is addressable.  Panics on every other kind. -/
def Value.Elem (v : Value) : Except Panic Value :=
  match v.val with
  | some (.iface none) => .ok Value.zero
  | some (.iface (some x)) => .ok ⟨some x, false, v.flagRO, []⟩
  | some (.ptr none) => .ok Value.zero
  | some (.ptr (some x)) => .ok ⟨some x, true, v.flagRO, []⟩
  | _ => .error ⟨"reflect: call of reflect.Value.Elem on non-pointer Value"⟩

/-- `Value.FieldByName`: the field with the given name, or the zero Value when there is
none; the field inherits addressability.  Panics when the value is not a struct.  (Only the
exported names `Spec` and `Template` are ever looked up, so no read-only flag is added.) -/
def Value.FieldByName (v : Value) (name : String) : Except Panic Value :=
  match v.val with
  | some (.struct _ fields) =>
    match fields.lookup name with
    | some f => .ok ⟨some f, v.flagAddr, v.flagRO, v.path ++ [name]⟩
    | none => .ok Value.zero
  | _ => .error ⟨"reflect: call of reflect.Value.FieldByName on non-struct Value"⟩

/-- `Value.CanAddr`. -/
def Value.CanAddr (v : Value) : Bool := v.flagAddr

/-- `Value.Addr`: a pointer Value to an addressable value; panics otherwise. -/
def Value.Addr (v : Value) : Except Panic Value :=
  match v.val, v.flagAddr with
  | some x, true => .ok ⟨some (.ptr (some x)), false, v.flagRO, v.path⟩
  | _, _ => .error ⟨"reflect.Value.Addr of unaddressable value"⟩

/-- The name of the type `corev1.PodTemplateSpec`. -/
def podTemplateSpecType : String := "k8s.io/api/core/v1.PodTemplateSpec"

/-- A `*corev1.PodTemplateSpec` that points into a typed object: the selectors of the
member it addresses, and the `PodTemplateSpec` stored there. -/
structure TemplatePtr where
  path : List String
  template : GoValue

/-- The type assertion `v.Interface().(*corev1.PodTemplateSpec)`: it succeeds exactly on a
pointer to a struct of type `PodTemplateSpec`. -/
def Value.asPodTemplateSpecPtr (v : Value) : Option TemplatePtr :=
  match v.val with
  | some (.ptr (some (.struct typ fields))) =>
    if typ = podTemplateSpecType then some ⟨v.path, .struct typ fields⟩ else none
  | _ => none

/-- `podTemplate` of berglas_transformer.go: reflectively get a pointer to the
`PodTemplateSpec` at `Spec.Template` of the object `obj` points to. -/
def podTemplate (obj : GoValue) : Except Panic (Option TemplatePtr) :=
  let v := ValueOf obj
  match v.CanInterface with
  | .error p => .error p
  | .ok false => .ok none
  | .ok true =>
    match v.Elem with
    | .error p => .error p
    | .ok v =>
      if v.Kind ≠ Kind.Struct then .ok none
      else
        match v.FieldByName "Spec" with
        | .error p => .error p
        | .ok v =>
          if v.Kind ≠ Kind.Struct then .ok none
          else
            match v.FieldByName "Template" with
            | .error p => .error p
            | .ok v =>
              if !v.CanAddr then .ok none
              else
                match v.Addr with
                | .error p => .error p
                | .ok v =>
                  match v.CanInterface with
                  | .error p => .error p
                  | .ok false => .ok none
                  | .ok true => .ok v.asPodTemplateSpecPtr

/-- The struct a typed object points to, with one member replaced: assignment through a
pointer obtained from `podTemplate`, which always addresses `Spec.Template`. -/
def GoValue.setField (v : GoValue) (name : String) (x : GoValue) : GoValue :=
  match v with
  | .struct typ fields =>
    .struct typ (fields.map fun kv => if kv.1 = name then (kv.1, x) else kv)
  | other => other

/-- The member `name` of a struct value. -/
def GoValue.field (v : GoValue) (name : String) : Option GoValue :=
  match v with
  | .struct _ fields => fields.lookup name
  | _ => none

/-- The struct a typed object points to, as `podTemplate` reaches it: the pointee of the
pointer that the object is, or that the interface holds. -/
def GoValue.pointee (obj : GoValue) : Option GoValue :=
  match obj with
  | .iface (some (.ptr (some s))) => some s
  | .ptr (some s) => some s
  | _ => none

/-- A struct with its member `Spec.Template` replaced. -/
def GoValue.withTemplate (s : GoValue) (x : GoValue) : GoValue :=
  match s.field "Spec" with
  | some spec => s.setField "Spec" (spec.setField "Template" x)
  | none => s

/-- The typed object after `*t = x` for the pointer `t` returned by `podTemplate`: the
struct the object points to (directly or through the interface holding it) has its member
`Spec.Template` replaced, in place. -/
def GoValue.storeTemplate (obj : GoValue) (x : GoValue) : GoValue :=
  match obj with
  | .iface (some (.ptr (some s))) => .iface (some (.ptr (some (s.withTemplate x))))
  | .ptr (some s) => .ptr (some (s.withTemplate x))
  | other => other

/-! JSON documents. -/

/-- A JSON document.  JSON text (the `[]byte` passed between `MarshalJSON`,
`json.Unmarshal`, `json.Marshal` and `UnmarshalJSON`) is represented by the document it
denotes; object members keep their order. -/
inductive Json where
  | null
  | bool (b : Bool)
  | num (n : Int)
  | str (s : String)
  | arr (items : List Json)
  | obj (members : List (String × Json))
  deriving Repr

/-- The member `key` of a JSON object. -/
def Json.get (d : Json) (key : String) : Option Json :=
  match d with
  | .obj members => members.lookup key
  | _ => none

/-- Whether a JSON object has a member `key`. -/
def Json.hasKey (d : Json) (key : String) : Bool := (d.get key).isSome

/-- A JSON object without its members named `key`. -/
def Json.erase (d : Json) (key : String) : Json :=
  match d with
  | .obj members => .obj (members.filter fun kv => kv.1 ≠ key)
  | other => other

/-- A resource document outside its PodTemplate region: the document with `spec.template`
removed. -/
def Json.outsideTemplate (d : Json) : Json :=
  match d with
  | .obj members =>
    .obj (members.map fun kv => if kv.1 = "spec" then (kv.1, kv.2.erase "template") else kv)
  | other => other

/-! The resource mutation bridge. -/

/-- `resid.Gvk`. -/
structure Gvk where
  Group : String
  Version : String
  Kind : String
  deriving DecidableEq, Repr

/-- `schema.GroupVersionKind`. -/
structure GroupVersionKind where
  Group : String
  Version : String
  Kind : String
  deriving DecidableEq, Repr

/-- `toSchemaGvk` of berglas_transformer.go. -/
def toSchemaGvk (x : Gvk) : GroupVersionKind :=
  { Group := x.Group, Version := x.Version, Kind := x.Kind }

/-- What a Go call ends in: it returns an `error` (nil is `none`), or it panics. -/
inductive Outcome where
  | returned (err : Option Error)
  | panicked (p : Panic)
  deriving DecidableEq, Repr

/-- The collaborators of `mutateResourceAs`, over resources `ρ` and mutator states `μ`:
* `schemeNew` is `scheme.Scheme.New`;
* `getGvk`, `marshalJSON`, `unmarshalJSON` are the methods `GetGvk`, `MarshalJSON` and
  `UnmarshalJSON` of `*resource.Resource` (the last one yields the resource it leaves
  behind and its error);
* `jsonUnmarshal data obj` is `json.Unmarshal(data, obj)`, yielding the filled-in object;
* `jsonMarshal` is `json.Marshal`;
* `mutate m t` is `m.Mutate(template)` on a template holding `t`: the mutator afterwards,
  the template afterwards, and the returned `(bool, error)`. -/
structure Bridge (ρ μ : Type) where
  schemeNew : GroupVersionKind → Except Error GoValue
  getGvk : ρ → Gvk
  marshalJSON : ρ → Except Error Json
  unmarshalJSON : Json → ρ → ρ × Option Error
  jsonUnmarshal : Json → GoValue → Except Error GoValue
  jsonMarshal : GoValue → Except Error Json
  mutate : μ → GoValue → μ × GoValue × Except Error Bool

/-- The effect of one `mutateResourceAs` call: the resource and the mutator it leaves, the
templates it handed to `Mutate` (in call order), and how it ended. -/
structure MutateResult (ρ μ : Type) where
  resource : ρ
  mutator : μ
  mutateCalls : List GoValue
  outcome : Outcome

/-- `mutateResourceAs` of berglas_transformer.go: performs the Berglas mutation on a
Kustomize resource. -/
def mutateResourceAs {ρ μ : Type} (env : Bridge ρ μ) (m : μ) (r : ρ) : MutateResult ρ μ :=
  -- Create a new typed object
  match env.schemeNew (toSchemaGvk (env.getGvk r)) with
  | .error _ => ⟨r, m, [], .returned none⟩ -- This is ignorable
  | .ok obj =>
    -- Marshal the unstructured resource to JSON and unmarshal it back into the typed structure
    match env.marshalJSON r with
    | .error err => ⟨r, m, [], .returned (some err)⟩
    | .ok data =>
      match env.jsonUnmarshal data obj with
      | .error err => ⟨r, m, [], .returned (some err)⟩
      | .ok obj =>
        -- Reflectively get a pointer to the PodTemplateSpec
        match podTemplate obj with
        | .error p => ⟨r, m, [], .panicked p⟩
        | .ok none => ⟨r, m, [], .returned none⟩
        | .ok (some template) =>
          -- Mutate the PodTemplateSpec and if there were changes, reverse the marshalling
          match env.mutate m template.template with
          | (m, _, .error err) => ⟨r, m, [template.template], .returned (some err)⟩
          | (m, t, .ok true) =>
            match env.jsonMarshal (obj.storeTemplate t) with
            | .error err => ⟨r, m, [template.template], .returned (some err)⟩
            | .ok data =>
              let w := env.unmarshalJSON data r
              ⟨w.1, m, [template.template], .returned w.2⟩
          | (m, _, .ok false) => ⟨r, m, [template.template], .returned none⟩

/-! The transformer plugin. -/

/-- `resmap.PluginHelpers`, an opaque handle. -/
structure PluginHelpers where
  id : Nat
  deriving DecidableEq, Repr

/-- `types.GeneratorOptions`. -/
structure GeneratorOptions where
  Labels : List (String × String) := []
  Annotations : List (String × String) := []
  DisableNameSuffixHash : Bool := false
  deriving DecidableEq, Repr

/-- The `plugin` struct of berglas_transformer.go. -/
structure plugin where
  h : Option PluginHelpers
  GeneratorOptions : Option GeneratorOptions
  GenerateSecrets : Bool
  deriving DecidableEq, Repr

/-- The resources of a pass: the memory holding the resources (by address) and the
resource map `m`. -/
structure World (ρ M : Type) where
  heap : Nat → ρ
  resmap : M

/-- The collaborators of `Transform`, over resource maps `M`: those of `mutateResourceAs`
together with `berglas.NewMutator`, `m.Resources()` (addresses of the listed resources) and
`mutator.FlushSecrets(m)`. -/
structure Pass (ρ M μ : Type) extends Bridge ρ μ where
  newMutator : Option PluginHelpers → Option GeneratorOptions → μ
  resources : M → List Nat
  flushSecrets : μ → World ρ M → μ × World ρ M × Option Error

/-- The calls `Transform` makes. -/
inductive Call where
  | newMutator (h : Option PluginHelpers) (opts : Option GeneratorOptions)
  | mutate (r : Nat)
  | flush
  deriving DecidableEq, Repr

/-- The effect of `Transform`: the resources and the mutator it leaves, the calls it made
with how each ended, and how it ended itself. -/
structure TransformResult (ρ M μ : Type) where
  world : World ρ M
  mutator : μ
  trace : List (Call × Outcome)
  outcome : Outcome

/-- The loop of `Transform` over the listed resources. -/
def transformLoop {ρ M μ : Type} (env : Pass ρ M μ) :
    List Nat → μ → World ρ M → TransformResult ρ M μ
  | [], mutator, w => ⟨w, mutator, [], .returned none⟩
  | r :: rs, mutator, w =>
    -- Mutate using the appropriate API struct
    let res := mutateResourceAs env.toBridge mutator (w.heap r)
    let w := { w with heap := Function.update w.heap r res.resource }
    match res.outcome with
    | .returned none =>
      -- Check if there were any new secrets that need to be added
      match env.flushSecrets res.mutator w with
      | (mutator, w, some err) =>
        ⟨w, mutator, [(.mutate r, .returned none), (.flush, .returned (some err))],
          .returned (some err)⟩
      | (mutator, w, none) =>
        let rest := transformLoop env rs mutator w
        { rest with
          trace := (.mutate r, .returned none) :: (.flush, .returned none) :: rest.trace }
    | stop => ⟨w, res.mutator, [(.mutate r, stop)], stop⟩

/-- `plugin.Transform` of berglas_transformer.go. -/
def Transform {ρ M μ : Type} (env : Pass ρ M μ) (p : plugin) (w : World ρ M) :
    TransformResult ρ M μ :=
  let opts := p.GeneratorOptions
  let opts :=
    if opts = none && p.GenerateSecrets then some {}
    else if !p.GenerateSecrets then none
    else opts
  -- Create a new mutator
  let mutator := env.newMutator p.h opts
  let res := transformLoop env (env.resources w.resmap) mutator w
  { res with trace := (.newMutator p.h opts, .returned none) :: res.trace }

/-- The generator options the mutator is to receive, in the words of the specification:
absent whenever `GenerateSecrets` is false, the configured options when it is true and they
are present, the empty default when it is true and they are absent. -/
def specifiedOptions (p : plugin) : Option GeneratorOptions :=
  match p.GenerateSecrets, p.GeneratorOptions with
  | false, _ => none
  | true, some o => some o
  | true, none => some {}

/-- The calls of a complete pass over the listed resources, in the words of the
specification: for each resource in turn, its mutation and then a flush. -/
def passCalls : List Nat → List Call
  | [] => []
  | r :: rs => .mutate r :: .flush :: passCalls rs

/-- What one call of the pass does to the mutator and the resources, and how it ends:
`mutate r` is `mutateResourceAs(mutator, r)` on the resource at address `r`, which is left
in memory as the call leaves it; `flush` is `mutator.FlushSecrets(m)`; creating the mutator
touches neither. -/
def callEffect {ρ M μ : Type} (env : Pass ρ M μ) (c : Call) (s : μ × World ρ M) :
    (μ × World ρ M) × Outcome :=
  match c with
  | .mutate r =>
    let res := mutateResourceAs env.toBridge s.1 (s.2.heap r)
    ((res.mutator, { s.2 with heap := Function.update s.2.heap r res.resource }), res.outcome)
  | .flush =>
    let f := env.flushSecrets s.1 s.2
    ((f.1, f.2.1), .returned f.2.2)
  | .newMutator h opts => ((env.newMutator h opts, s.2), .returned none)

/-- Making the calls of a list in order, in the words of the specification: each call acts
on the mutator and the resources the calls before it left, and the sequence is cut off
immediately after the first call that does not return without an error.  The result is the
mutator and the resources left behind and the calls made, each with how it ended. -/
def runCalls {ρ M μ : Type} (env : Pass ρ M μ) :
    List Call → μ × World ρ M → (μ × World ρ M) × List (Call × Outcome)
  | [], s => (s, [])
  | c :: cs, s =>
    let step := callEffect env c s
    if step.2 = .returned none then
      let rest := runCalls env cs step.1
      (rest.1, (c, step.2) :: rest.2)
    else (step.1, [(c, step.2)])

/-- How a sequence of calls ends: as its last call did, without an error when there was no
call. -/
def lastOutcome (tr : List (Call × Outcome)) : Outcome :=
  (tr.getLast?.map Prod.snd).getD (.returned none)

/-- The collaborators of `Config`: `yamlToJSON` is the conversion of the configuration text
that `yaml.Unmarshal` starts with, `decodeOptions v old` is the decoding of the value `v`
into the `*types.GeneratorOptions` member holding `old`. -/
structure ConfigEnv where
  yamlToJSON : String → Except Error Json
  decodeOptions : Json → Option GeneratorOptions → Except Error (Option GeneratorOptions)

/-- A `json:"..."` struct tag: the name before the first comma and the `omitempty` option. -/
structure FieldTag where
  name : String
  omitempty : Bool
  deriving DecidableEq, Repr

/-- The tag of `plugin.GeneratorOptions`: `json:"generatorOptions,omitempty"`. -/
def plugin.GeneratorOptionsTag : FieldTag := ⟨"generatorOptions", true⟩

/-- The tag of `plugin.GenerateSecrets`: `json:"-"`. -/
def plugin.GenerateSecretsTag : FieldTag := ⟨"-", false⟩

/-- A name up to letter case. -/
def foldCase (s : String) : List Char := s.data.map Char.toLower

/-- Whether the object key `key` is decoded into the exported field `goName` tagged `t`:
never when the tag is `-`, otherwise when the key equals the tag name (the field name for
an empty tag name) up to letter case. -/
def FieldTag.binds (t : FieldTag) (goName key : String) : Bool :=
  if t.name = "-" then false
  else foldCase key = foldCase (if t.name = "" then goName else t.name)

/-- Decoding one member of the configuration object into the plugin; object keys without a
field are ignored, the first decoding error is kept. -/
def unmarshalMember (env : ConfigEnv) (acc : plugin × Option Error) (kv : String × Json) :
    plugin × Option Error :=
  if plugin.GeneratorOptionsTag.binds "GeneratorOptions" kv.1 then
    match env.decodeOptions kv.2 acc.1.GeneratorOptions with
    | .ok o => ({ acc.1 with GeneratorOptions := o }, acc.2)
    | .error e => (acc.1, acc.2 <|> some e)
  else if plugin.GenerateSecretsTag.binds "GenerateSecrets" kv.1 then
    match kv.2 with
    | .bool b => ({ acc.1 with GenerateSecrets := b }, acc.2)
    | .null => acc
    | _ => (acc.1, acc.2 <|> some "json: cannot unmarshal into Go struct field plugin.GenerateSecrets of type bool")
  else acc

/-- `plugin.Config` of berglas_transformer.go: the plugin it leaves and its error. -/
def Config (env : ConfigEnv) (p : plugin) (h : PluginHelpers) (c : String) :
    plugin × Option Error :=
  let p := { p with h := some h }
  match env.yamlToJSON c with
  | .error e => (p, some e)
  | .ok (.obj members) => members.foldl (unmarshalMember env) (p, none)
  | .ok .null => (p, none)
  | .ok _ => (p, some "json: cannot unmarshal into Go value of type transformer.plugin")

/-! The "remove generator" edit command. -/

/-- The kustomization manifest: its generator list and all its other fields. -/
structure Kustomization (α : Type) where
  Generators : List String
  others : α

/-- The collaborators of `RunRemoveGenerator`, over file systems `F` and kustomization file
handles `K`: `NewKustomizationFile`, `Read` and `Write` of package `kustinternal` (`Read`
also yields the handle it leaves), `Match` is `filepath.Match`, `StringInSlice` is
`kustinternal.StringInSlice`. -/
structure EditEnv (F K α : Type) where
  NewKustomizationFile : F → Except Error K
  Read : K → F → Except Error (Kustomization α × K)
  Write : K → Kustomization α → F → F × Option Error
  Match : String → String → Except Error Bool
  StringInSlice : String → List String → Bool

/-- `removeGeneratorOptions` of removegenerator.go. -/
structure removeGeneratorOptions where
  generatorFilePaths : List String
  deriving DecidableEq, Repr

/-- `Validate` of removegenerator.go. -/
def removeGeneratorOptions.Validate (o : removeGeneratorOptions) (args : List String) :
    removeGeneratorOptions × Option Error :=
  if args.length = 0 then (o, some "must specify a generator file")
  else ({ o with generatorFilePaths := args }, none)

/-- `Complete` of removegenerator.go. -/
def removeGeneratorOptions.Complete (o : removeGeneratorOptions) (_args : List String) :
    removeGeneratorOptions × Option Error :=
  (o, none)

/-- The inner loop of `globPatterns`: the generators matching one pattern are appended to
`result`. -/
def globGenerators (Match : String → String → Except Error Bool) (pattern : String) :
    List String → List String → Except Error (List String)
  | [], result => .ok result
  | generator :: rest, result =>
    match Match pattern generator with
    | .error err => .error err
    | .ok false => globGenerators Match pattern rest result
    | .ok true => globGenerators Match pattern rest (result ++ [generator])

/-- The outer loop of `globPatterns`. -/
def globLoop (Match : String → String → Except Error Bool) (generators : List String) :
    List String → List String → Except Error (List String)
  | [], result => .ok result
  | pattern :: rest, result =>
    match globGenerators Match pattern generators result with
    | .error err => .error err
    | .ok result => globLoop Match generators rest result

/-- `globPatterns` of removegenerator.go. -/
def globPatterns (Match : String → String → Except Error Bool)
    (generators patterns : List String) : Except Error (List String) :=
  globLoop Match generators patterns []

/-- The effect of `RunRemoveGenerator`: the file system it leaves, the manifest it passed
to `Write` (if it called `Write`), and its error. -/
structure RunResult (F α : Type) where
  fSys : F
  written : Option (Kustomization α)
  err : Option Error

/-- `RunRemoveGenerator` of removegenerator.go. -/
def removeGeneratorOptions.RunRemoveGenerator {F K α : Type} (env : EditEnv F K α)
    (o : removeGeneratorOptions) (fSys : F) : RunResult F α :=
  match env.NewKustomizationFile fSys with
  | .error err => ⟨fSys, none, some err⟩
  | .ok mf =>
    match env.Read mf fSys with
    | .error err => ⟨fSys, none, some err⟩
    | .ok (m, mf) =>
      match globPatterns env.Match m.Generators o.generatorFilePaths with
      | .error err => ⟨fSys, none, some err⟩
      | .ok generators =>
        if generators.length = 0 then ⟨fSys, none, none⟩
        else
          let newGenerators :=
            m.Generators.filter fun generator => !env.StringInSlice generator generators
          let m := { m with Generators := newGenerators }
          let w := env.Write mf m fSys
          ⟨w.1, some m, w.2⟩

/-- `newCmdRemoveGenerator` of removegenerator.go: the `RunE` function of the command it
builds, run on the arguments `args`. -/
def newCmdRemoveGenerator {F K α : Type} (env : EditEnv F K α) (fSys : F) (args : List String) :
    RunResult F α :=
  let o : removeGeneratorOptions := ⟨[]⟩
  match o.Validate args with
  | (_, some err) => ⟨fSys, none, some err⟩
  | (o, none) =>
    match o.Complete args with
    | (_, some err) => ⟨fSys, none, some err⟩
    | (o, none) => o.RunRemoveGenerator env fSys

/-! A concrete instance of the collaborators: resources kept as their JSON documents, a
scheme that knows a workload kind and a configuration kind (cut down to a few members),
a codec that binds object keys to struct members and ignores keys without a member, as
`encoding/json` does, and a mutator that replaces one secret reference. -/

/-- The name of the typed shape of `apps/v1` `StatefulSet`. -/
def statefulSetType : String := "k8s.io/api/apps/v1.StatefulSet"

/-- The name of the typed shape of `v1` `ConfigMap`. -/
def configMapType : String := "k8s.io/api/core/v1.ConfigMap"

/-- A `StatefulSet` object, cut down to type meta (`Kind`, `APIVersion`), object meta
(`Name`, `CreationTimestamp`) and a spec with a template and a service name. -/
def typedStatefulSet (kind apiVersion name created hostname serviceName : String) : GoValue :=
  .ptr (some (.struct statefulSetType
    [("Kind", .basic "string" kind), ("APIVersion", .basic "string" apiVersion),
     ("Name", .basic "string" name),
     ("CreationTimestamp", .basic "k8s.io/apimachinery/pkg/apis/meta/v1.Time" created),
     ("Spec", .struct "k8s.io/api/apps/v1.StatefulSetSpec"
       [("Template", .struct podTemplateSpecType [("Hostname", .basic "string" hostname)]),
        ("ServiceName", .basic "string" serviceName)])]))

/-- A `ConfigMap` object, cut down to type meta, object meta and its data. -/
def typedConfigMap (kind apiVersion name created : String) : GoValue :=
  .ptr (some (.struct configMapType
    [("Kind", .basic "string" kind), ("APIVersion", .basic "string" apiVersion),
     ("Name", .basic "string" name),
     ("CreationTimestamp", .basic "k8s.io/apimachinery/pkg/apis/meta/v1.Time" created),
     ("Data", .basic "map[string]string" "")]))

/-- A fresh `StatefulSet` object: every member has its zero value. -/
def newStatefulSet : GoValue := typedStatefulSet "" "" "" "" "" ""

/-- A fresh `ConfigMap` object: every member has its zero value. -/
def newConfigMap : GoValue := typedConfigMap "" "" "" ""

/-- The scheme of the instance. -/
def demoSchemeNew (gvk : GroupVersionKind) : Except Error GoValue :=
  if gvk = ⟨"apps", "v1", "StatefulSet"⟩ then .ok newStatefulSet
  else if gvk = ⟨"", "v1", "ConfigMap"⟩ then .ok newConfigMap
  else .error "no kind is registered for the type"

/-- The identity a document declares. -/
def demoGetGvk (r : Json) : Gvk :=
  match r.get "apiVersion", r.get "kind" with
  | some (.str v), some (.str k) => if v = "apps/v1" then ⟨"apps", "v1", k⟩ else ⟨"", v, k⟩
  | _, _ => ⟨"", "", ""⟩

/-- Decoding the member `key` of an object into a string: absent and null leave the zero
value, a value of another JSON type is an error. -/
def strMember (d : Json) (key : String) : Except Error String :=
  match d.get key with
  | none => .ok ""
  | some .null => .ok ""
  | some (.str s) => .ok s
  | some _ => .error "json: cannot unmarshal into Go struct field of type string"

/-- Decoding the member `key` of an object into a struct: the member must be an object
(absent and null stand for the empty object). -/
def objMember (d : Json) (key : String) : Except Error Json :=
  match d.get key with
  | none => .ok (.obj [])
  | some .null => .ok (.obj [])
  | some (.obj ms) => .ok (.obj ms)
  | some _ => .error "json: cannot unmarshal into Go struct field of type struct"

/-- The decoder of the instance: each member of the typed shape is read from the object
key of its tag, and object keys without a member are ignored. -/
def demoUnmarshal (data : Json) (obj : GoValue) : Except Error GoValue :=
  match data, obj with
  | .obj ms, .ptr (some (.struct typ _)) =>
    if typ = statefulSetType then do
      let kind ← strMember (.obj ms) "kind"
      let apiVersion ← strMember (.obj ms) "apiVersion"
      let metadata ← objMember (.obj ms) "metadata"
      let name ← strMember metadata "name"
      let created ← strMember metadata "creationTimestamp"
      let spec ← objMember (.obj ms) "spec"
      let template ← objMember spec "template"
      let hostname ← strMember template "hostname"
      let serviceName ← strMember spec "serviceName"
      pure (typedStatefulSet kind apiVersion name created hostname serviceName)
    else if typ = configMapType then do
      let kind ← strMember (.obj ms) "kind"
      let apiVersion ← strMember (.obj ms) "apiVersion"
      let metadata ← objMember (.obj ms) "metadata"
      let name ← strMember metadata "name"
      let created ← strMember metadata "creationTimestamp"
      pure (typedConfigMap kind apiVersion name created)
    else .error "json: unsupported type"
  | _, _ => .error "json: cannot unmarshal into Go value"

/-- The string held by a member of a struct. -/
def strField (v : Option GoValue) (name : String) : String :=
  match v.bind fun s => s.field name with
  | some (.basic _ repr) => repr
  | _ => ""

/-- A string member tagged `omitempty`: left out when empty. -/
def omitEmpty (key value : String) : List (String × Json) :=
  if value = "" then [] else [(key, .str value)]

/-- The encoding of type meta and object meta: `kind`, `apiVersion` and `metadata.name` are
tagged `omitempty`; `metadata` and its `creationTimestamp` are always written, the zero
time as `null`. -/
def encodeMeta (s : Option GoValue) : List (String × Json) :=
  omitEmpty "kind" (strField s "Kind") ++ omitEmpty "apiVersion" (strField s "APIVersion") ++
    [("metadata", .obj (omitEmpty "name" (strField s "Name") ++
      [("creationTimestamp",
        if strField s "CreationTimestamp" = "" then .null
        else .str (strField s "CreationTimestamp"))]))]

/-- The encoder of the instance: the members of the typed shape in their order, under the
keys of their tags; like `encoding/json` it writes a member that is not tagged `omitempty`
even when the member has its zero value. -/
def demoMarshal (obj : GoValue) : Except Error Json :=
  match obj with
  | .ptr (some (.struct typ fields)) =>
    let s : Option GoValue := some (.struct typ fields)
    if typ = statefulSetType then
      let spec := s.bind fun v => v.field "Spec"
      let template := spec.bind fun v => v.field "Template"
      .ok (.obj (encodeMeta s ++
        [("spec", .obj
           [("template", .obj (omitEmpty "hostname" (strField template "Hostname"))),
            ("serviceName", .str (strField spec "ServiceName"))])]))
    else if typ = configMapType then
      .ok (.obj (encodeMeta s))
    else .error "json: unsupported type"
  | _ => .error "json: unsupported value"

/-- The mutator of the instance, counting its calls: the reference
`berglas://bucket/secret` is replaced by its value, the reference `berglas://` is
rejected, every other template is left alone. -/
def demoMutate (m : Nat) (t : GoValue) : Nat × GoValue × Except Error Bool :=
  if strField (some t) "Hostname" = "berglas://bucket/secret" then
    (m + 1, t.setField "Hostname" (.basic "string" "s3cr3t"), .ok true)
  else if strField (some t) "Hostname" = "berglas://" then
    (m + 1, t, .error "invalid berglas reference")
  else (m + 1, t, .ok false)

/-- The collaborators of `mutateResourceAs` in the instance. -/
def demoBridge : Bridge Json Nat where
  schemeNew := demoSchemeNew
  getGvk := demoGetGvk
  marshalJSON := fun r => .ok r
  unmarshalJSON := fun data _ => (data, none)
  jsonUnmarshal := demoUnmarshal
  jsonMarshal := demoMarshal
  mutate := demoMutate

/-- A stateful set document with the given further spec members and host name. -/
def demoStatefulSet (more : List (String × Json)) (hostname : Json) : Json :=
  .obj [("kind", .str "StatefulSet"), ("apiVersion", .str "apps/v1"),
    ("spec", .obj
      ([("serviceName", .str "db")] ++ more ++ [("template", .obj [("hostname", hostname)])]))]

/-- A document of a kind the scheme does not know. -/
def demoFoo : Json := .obj [("kind", .str "Foo"), ("apiVersion", .str "v1")]

/-- A configuration document: a known kind without a pod template. -/
def demoConfigMap : Json := .obj [("kind", .str "ConfigMap"), ("apiVersion", .str "v1")]

/-- A stateful set document that sets a spec member the typed shape does not have. -/
def demoNewerStatefulSet : Json :=
  demoStatefulSet
    [("persistentVolumeClaimRetentionPolicy", .obj [("whenDeleted", .str "Retain")])]
    (.str "berglas://bucket/secret")

/-- Whether a document has the member `spec.persistentVolumeClaimRetentionPolicy`. -/
def hasRetentionPolicy (d : Json) : Bool :=
  match d.get "spec" with
  | some spec => spec.hasKey "persistentVolumeClaimRetentionPolicy"
  | none => false

/-- The stateful set after the secret reference in its template has been replaced. -/
def demoInjected : Json :=
  .obj [("kind", .str "StatefulSet"), ("apiVersion", .str "apps/v1"),
    ("metadata", .obj [("creationTimestamp", .null)]),
    ("spec", .obj [("template", .obj [("hostname", .str "s3cr3t")]), ("serviceName", .str "db")])]

/-- Whether the generator `g` matches some pattern of `patterns`. -/
def matchesSome (Match : String → String → Except Error Bool) (patterns : List String)
    (g : String) : Bool :=
  patterns.any fun pattern =>
    match Match pattern g with
    | .ok true => true
    | _ => false

/-- A file matcher for the instance: `*` matches every name, the pattern `[` is
malformed, every other pattern matches itself only. -/
def demoMatch (pattern name : String) : Except Error Bool :=
  if pattern = "[" then .error "syntax error in pattern"
  else if pattern = "*" then .ok true
  else .ok (decide (pattern = name))

/-- The collaborators of `RunRemoveGenerator` in the instance: the file system holds the
generator list of the one kustomization file. -/
def demoEdit : EditEnv (List String) Unit Unit where
  NewKustomizationFile := fun _ => .ok ()
  Read := fun _ fSys => .ok (⟨fSys, ()⟩, ())
  Write := fun _ m _ => (m.Generators, none)
  Match := demoMatch
  StringInSlice := fun s l => decide (s ∈ l)

/-- The collaborators of `Transform` in the instance: the resource map lists addresses,
a new mutator has made no call, and flushing fails once the mutator has been called three
times. -/
def demoPass : Pass Json (List Nat) Nat where
  toBridge := demoBridge
  newMutator := fun _ _ => 0
  resources := fun m => m
  flushSecrets := fun m w => (m, w, if m < 3 then none else some "secret already exists")

/-- Four resources in memory: two stateful sets with a secret reference, a resource of an
unknown kind, and a stateful set with a reference the mutator rejects. -/
def demoHeap (a : Nat) : Json :=
  match a with
  | 0 => demoStatefulSet [] (.str "berglas://bucket/secret")
  | 1 => demoFoo
  | 2 => demoStatefulSet [] (.str "berglas://")
  | _ => demoStatefulSet [] (.str "berglas://bucket/secret")

/-- The configuration reader of the instance: the one-line document
`generateSecrets: true` and the empty document are understood. -/
def demoConfigEnv : ConfigEnv where
  yamlToJSON := fun c =>
    if c = "generateSecrets: true" then .ok (.obj [("generateSecrets", .bool true)])
    else if c = "" then .ok .null
    else .error "yaml: unsupported document"
  decodeOptions := fun v old =>
    match v with
    | .null => .ok none
    | .obj _ => .ok (some (old.getD {}))
    | _ => .error "json: cannot unmarshal into Go struct field plugin.generatorOptions"

/-! Theorems about `mutateResourceAs`. -/

/-- C1: for a resource whose group/version/kind is unknown to the scheme (`scheme.Scheme.New`
returns an error), `mutateResourceAs` returns no error, never invokes the mutator, and
leaves the resource (hence its raw form) and the mutator as they were. -/
theorem mutateResourceAs_unknown_kind {ρ μ : Type} (env : Bridge ρ μ) (m : μ) (r : ρ)
    (e : Error) (hnew : env.schemeNew (toSchemaGvk (env.getGvk r)) = .error e) :
    (mutateResourceAs env m r).outcome = .returned none ∧
    (mutateResourceAs env m r).mutateCalls = [] ∧
    (mutateResourceAs env m r).mutator = m ∧
    (mutateResourceAs env m r).resource = r ∧
    env.marshalJSON (mutateResourceAs env m r).resource = env.marshalJSON r := by
  simp [mutateResourceAs, hnew]

/-- The scenario of C1: a resource of the unknown kind `Foo/v1` is left untouched, without
an error and without a call of the mutator. -/
theorem mutateResourceAs_unknown_kind_witness :
    demoBridge.schemeNew (toSchemaGvk (demoBridge.getGvk demoFoo))
      = .error "no kind is registered for the type" ∧
    (mutateResourceAs demoBridge 0 demoFoo).outcome = .returned none ∧
    (mutateResourceAs demoBridge 0 demoFoo).mutateCalls = [] ∧
    (mutateResourceAs demoBridge 0 demoFoo).mutator = 0 ∧
    (mutateResourceAs demoBridge 0 demoFoo).resource = demoFoo ∧
    demoBridge.marshalJSON (mutateResourceAs demoBridge 0 demoFoo).resource
      = demoBridge.marshalJSON demoFoo :=
  ⟨rfl, mutateResourceAs_unknown_kind demoBridge 0 demoFoo
    "no kind is registered for the type" rfl⟩

/-- C2: for a resource of a known kind that decodes successfully and whose typed view has
no PodTemplate path (`podTemplate` returns nil), `mutateResourceAs` returns no error, never
invokes the mutator, and leaves the resource (hence its raw form) as it was. -/
theorem mutateResourceAs_no_template {ρ μ : Type} (env : Bridge ρ μ) (m : μ) (r : ρ)
    (obj₀ obj : GoValue) (data : Json)
    (hnew : env.schemeNew (toSchemaGvk (env.getGvk r)) = .ok obj₀)
    (hraw : env.marshalJSON r = .ok data)
    (hdec : env.jsonUnmarshal data obj₀ = .ok obj)
    (hloc : podTemplate obj = .ok none) :
    (mutateResourceAs env m r).outcome = .returned none ∧
    (mutateResourceAs env m r).mutateCalls = [] ∧
    (mutateResourceAs env m r).mutator = m ∧
    (mutateResourceAs env m r).resource = r ∧
    env.marshalJSON (mutateResourceAs env m r).resource = env.marshalJSON r := by
  simp [mutateResourceAs, hnew, hraw, hdec, hloc]

/-- A configuration resource: known to the scheme, decoded, without a PodTemplate path. -/
theorem mutateResourceAs_no_template_witness :
    (mutateResourceAs demoBridge 0 demoConfigMap).outcome = .returned none ∧
    (mutateResourceAs demoBridge 0 demoConfigMap).mutateCalls = [] ∧
    (mutateResourceAs demoBridge 0 demoConfigMap).mutator = 0 ∧
    (mutateResourceAs demoBridge 0 demoConfigMap).resource = demoConfigMap ∧
    demoBridge.marshalJSON (mutateResourceAs demoBridge 0 demoConfigMap).resource
      = demoBridge.marshalJSON demoConfigMap :=
  mutateResourceAs_no_template demoBridge 0 demoConfigMap newConfigMap
    (typedConfigMap "ConfigMap" "v1" "" "") demoConfigMap rfl rfl rfl rfl

/-- C3: if the `Mutate` call on the located template returns `changed = false` with no
error, then `mutateResourceAs` returns no error and the resource (hence its raw form) is
what it was before the call, whatever `Mutate` did to the template of the typed view: the
typed view is not written back. -/
theorem mutateResourceAs_unchanged {ρ μ : Type} (env : Bridge ρ μ) (m m1 : μ) (r : ρ)
    (obj₀ obj t1 : GoValue) (data : Json) (t : TemplatePtr)
    (hnew : env.schemeNew (toSchemaGvk (env.getGvk r)) = .ok obj₀)
    (hraw : env.marshalJSON r = .ok data)
    (hdec : env.jsonUnmarshal data obj₀ = .ok obj)
    (hloc : podTemplate obj = .ok (some t))
    (hmut : env.mutate m t.template = (m1, t1, .ok false)) :
    (mutateResourceAs env m r).outcome = .returned none ∧
    (mutateResourceAs env m r).mutateCalls = [t.template] ∧
    (mutateResourceAs env m r).mutator = m1 ∧
    (mutateResourceAs env m r).resource = r ∧
    env.marshalJSON (mutateResourceAs env m r).resource = env.marshalJSON r := by
  simp [mutateResourceAs, hnew, hraw, hdec, hloc, hmut]

/-- A workload whose template holds no secret reference: the mutator is called once,
reports no change, and the resource stays as it was. -/
theorem mutateResourceAs_unchanged_witness :
    (mutateResourceAs demoBridge 0 (demoStatefulSet [] (.str "db-0"))).outcome
      = .returned none ∧
    (mutateResourceAs demoBridge 0 (demoStatefulSet [] (.str "db-0"))).mutateCalls
      = [.struct podTemplateSpecType [("Hostname", .basic "string" "db-0")]] ∧
    (mutateResourceAs demoBridge 0 (demoStatefulSet [] (.str "db-0"))).mutator = 1 ∧
    (mutateResourceAs demoBridge 0 (demoStatefulSet [] (.str "db-0"))).resource
      = demoStatefulSet [] (.str "db-0") ∧
    demoBridge.marshalJSON
        (mutateResourceAs demoBridge 0 (demoStatefulSet [] (.str "db-0"))).resource
      = demoBridge.marshalJSON (demoStatefulSet [] (.str "db-0")) :=
  mutateResourceAs_unchanged demoBridge 0 1 (demoStatefulSet [] (.str "db-0"))
    newStatefulSet
    (typedStatefulSet "StatefulSet" "apps/v1" "" "" "db-0" "db")
    (.struct podTemplateSpecType [("Hostname", .basic "string" "db-0")])
    (demoStatefulSet [] (.str "db-0"))
    ⟨["Spec", "Template"], .struct podTemplateSpecType [("Hostname", .basic "string" "db-0")]⟩
    rfl rfl rfl rfl rfl

/-- C7: for a resource of a known kind, if serialising its raw form fails, or decoding it
into the typed shape fails, or the mutator returns an error, then `mutateResourceAs`
returns that error and the resource (hence its raw form) is what it was: nothing is
written back. -/
theorem mutateResourceAs_error {ρ μ : Type} (env : Bridge ρ μ) (m : μ) (r : ρ)
    (obj₀ : GoValue) (e : Error)
    (hnew : env.schemeNew (toSchemaGvk (env.getGvk r)) = .ok obj₀)
    (hfail :
      env.marshalJSON r = .error e ∨
      (∃ data, env.marshalJSON r = .ok data ∧ env.jsonUnmarshal data obj₀ = .error e) ∨
      (∃ data obj t m1 t1, env.marshalJSON r = .ok data ∧
        env.jsonUnmarshal data obj₀ = .ok obj ∧ podTemplate obj = .ok (some t) ∧
        env.mutate m t.template = (m1, t1, .error e))) :
    (mutateResourceAs env m r).outcome = .returned (some e) ∧
    (mutateResourceAs env m r).resource = r ∧
    env.marshalJSON (mutateResourceAs env m r).resource = env.marshalJSON r := by
  rcases hfail with hraw | ⟨data, hraw, hdec⟩ | ⟨data, obj, t, m1, t1, hraw, hdec, hloc, hmut⟩
  · simp [mutateResourceAs, hnew, hraw]
  · simp [mutateResourceAs, hnew, hraw, hdec]
  · simp [mutateResourceAs, hnew, hraw, hdec, hloc, hmut]

/-- The scenario of C7: a malformed document of a recognized kind (a number where the
typed shape has a string) is reported and left as it was; so is a document whose secret
reference the mutator rejects. -/
theorem mutateResourceAs_error_witness :
    ((mutateResourceAs demoBridge 0 (demoStatefulSet [] (.num 3))).outcome
      = .returned (some "json: cannot unmarshal into Go struct field of type string") ∧
    (mutateResourceAs demoBridge 0 (demoStatefulSet [] (.num 3))).resource
      = demoStatefulSet [] (.num 3) ∧
    demoBridge.marshalJSON (mutateResourceAs demoBridge 0 (demoStatefulSet [] (.num 3))).resource
      = demoBridge.marshalJSON (demoStatefulSet [] (.num 3))) ∧
    ((mutateResourceAs demoBridge 0 (demoStatefulSet [] (.str "berglas://"))).outcome
      = .returned (some "invalid berglas reference") ∧
    (mutateResourceAs demoBridge 0 (demoStatefulSet [] (.str "berglas://"))).resource
      = demoStatefulSet [] (.str "berglas://") ∧
    demoBridge.marshalJSON
        (mutateResourceAs demoBridge 0 (demoStatefulSet [] (.str "berglas://"))).resource
      = demoBridge.marshalJSON (demoStatefulSet [] (.str "berglas://"))) :=
  ⟨mutateResourceAs_error demoBridge 0 (demoStatefulSet [] (.num 3)) newStatefulSet
      "json: cannot unmarshal into Go struct field of type string" rfl
      (Or.inr (Or.inl ⟨demoStatefulSet [] (.num 3), rfl, rfl⟩)),
    mutateResourceAs_error demoBridge 0 (demoStatefulSet [] (.str "berglas://")) newStatefulSet
      "invalid berglas reference" rfl
      (Or.inr (Or.inr ⟨demoStatefulSet [] (.str "berglas://"),
        typedStatefulSet "StatefulSet" "apps/v1" "" "" "berglas://" "db",
        ⟨["Spec", "Template"],
          .struct podTemplateSpecType [("Hostname", .basic "string" "berglas://")]⟩,
        1, .struct podTemplateSpecType [("Hostname", .basic "string" "berglas://")],
        rfl, rfl, rfl, rfl⟩))⟩

/-! Theorems about `podTemplate`. -/

/-- What `podTemplate` computes on a non-nil pointer to a struct with fields `fs`. -/
theorem podTemplate_ptr_struct (T : String) (fs : List (String × GoValue)) :
    podTemplate (.ptr (some (.struct T fs))) =
      .ok (match fs.lookup "Spec" with
        | some (.struct _ sfs) =>
          match sfs.lookup "Template" with
          | some (.struct typ tfs) =>
            if typ = podTemplateSpecType then some ⟨["Spec", "Template"], .struct typ tfs⟩
            else none
          | _ => none
        | _ => none) := by
  cases hs : fs.lookup "Spec" with
  | none => simp [podTemplate, ValueOf, Value.CanInterface, Value.Elem, Value.Kind,
      Value.FieldByName, hs, Value.zero]
  | some spec =>
    cases spec with
    | struct sT sfs =>
      cases ht : sfs.lookup "Template" with
      | none => simp [podTemplate, ValueOf, Value.CanInterface, Value.Elem, Value.Kind,
          Value.FieldByName, hs, ht, Value.zero, Value.CanAddr]
      | some tv =>
        cases tv <;>
        simp [podTemplate, ValueOf, Value.CanInterface, Value.Elem, Value.Kind,
          Value.FieldByName, hs, ht, Value.CanAddr, Value.Addr, Value.asPodTemplateSpecPtr]
    | _ => simp [podTemplate, ValueOf, Value.CanInterface, Value.Elem, Value.Kind,
        Value.FieldByName, hs]

/-- C5: on a non-nil pointer to a struct, `podTemplate` never fails; it returns a pointer
exactly when the struct has a struct-valued member `Spec` with a member `Template` of type
`PodTemplateSpec`, and that pointer addresses this very member (`Spec.Template`); in every
other case it returns nil. -/
theorem podTemplate_spec_template (T : String) (fs : List (String × GoValue)) :
    (∃ res, podTemplate (.ptr (some (.struct T fs))) = .ok res) ∧
    (∀ t : TemplatePtr, podTemplate (.ptr (some (.struct T fs))) = .ok (some t) ↔
      ∃ sT sfs tfs, fs.lookup "Spec" = some (.struct sT sfs) ∧
        sfs.lookup "Template" = some (.struct podTemplateSpecType tfs) ∧
        t = ⟨["Spec", "Template"], .struct podTemplateSpecType tfs⟩) ∧
    (podTemplate (.ptr (some (.struct T fs))) = .ok none ↔
      ¬ ∃ sT sfs tfs, fs.lookup "Spec" = some (.struct sT sfs) ∧
        sfs.lookup "Template" = some (.struct podTemplateSpecType tfs)) := by
  rw [podTemplate_ptr_struct]
  refine ⟨⟨_, rfl⟩, ?_, ?_⟩
  · intro t
    cases hs : fs.lookup "Spec" with
    | none => simp
    | some spec =>
      cases spec with
      | struct sT sfs =>
        cases ht : sfs.lookup "Template" with
        | none => simp [ht]
        | some tv =>
          cases tv with
          | struct typ tfs =>
            by_cases hty : typ = podTemplateSpecType
            · subst hty
              simp [ht]
              constructor
              · intro h
                exact ⟨sT, sfs, ⟨rfl, rfl⟩, tfs, ht, h.symm⟩
              · rintro ⟨_, _, ⟨rfl, rfl⟩, x, hx, rfl⟩
                rw [ht] at hx
                simp at hx
                rw [hx]
            · simp [ht, hty]
          | _ => simp [ht]
      | _ => simp
  · cases hs : fs.lookup "Spec" with
    | none => simp
    | some spec =>
      cases spec with
      | struct sT sfs =>
        cases ht : sfs.lookup "Template" with
        | none => simp [ht]
        | some tv =>
          cases tv with
          | struct typ tfs =>
            by_cases hty : typ = podTemplateSpecType
            · subst hty
              simp [ht]
            · simp [ht, hty]
          | _ => simp [ht]
      | _ => simp

/-- Looking up a member after it has been replaced. -/
theorem lookup_map_replace (name : String) (x : GoValue) (fs : List (String × GoValue)) :
    (fs.map fun kv => if kv.1 = name then (kv.1, x) else kv).lookup name
      = (fs.lookup name).map fun _ => x := by
  induction fs with
  | nil => rfl
  | cons kv rest ih =>
    obtain ⟨k, v⟩ := kv
    by_cases hk : k = name
    · subst hk
      simp only [List.map_cons, if_true]
      simp [List.lookup]
    · have hne : (name == k) = false := by
        simp
        exact fun h => hk h.symm
      simp only [List.map_cons, if_neg hk]
      simp [List.lookup, hne, ih]

/-- Looking up another member after a member has been replaced. -/
theorem lookup_map_replace_ne (name n : String) (x : GoValue) (fs : List (String × GoValue))
    (hn : n ≠ name) :
    (fs.map fun kv => if kv.1 = name then (kv.1, x) else kv).lookup n = fs.lookup n := by
  induction fs with
  | nil => rfl
  | cons kv rest ih =>
    obtain ⟨k, v⟩ := kv
    by_cases hk : k = name
    · subst hk
      have hne : (n == k) = false := by
        simp
        exact hn
      simp only [List.map_cons, if_true]
      simp [List.lookup, hne, ih]
    · simp only [List.map_cons, if_neg hk]
      by_cases hnk : n = k
      · subst hnk
        simp [List.lookup]
      · have hne : (n == k) = false := by
          simp
          exact hnk
        simp [List.lookup, hne, ih]

/-- Replacing a member keeps the member names and their order. -/
theorem map_replace_names (name : String) (x : GoValue) (fs : List (String × GoValue)) :
    (fs.map fun kv => if kv.1 = name then (kv.1, x) else kv).map Prod.fst
      = fs.map Prod.fst := by
  induction fs with
  | nil => rfl
  | cons kv rest ih =>
    by_cases hk : kv.1 = name
    · simp only [List.map_cons, if_pos hk, ih]
    · simp only [List.map_cons, if_neg hk, ih]

/-- Where `podTemplate` finds a template in the pointee of a pointer. -/
theorem podTemplate_ptr_struct_some (T : String) (fs : List (String × GoValue))
    (t : TemplatePtr) (hloc : podTemplate (.ptr (some (.struct T fs))) = .ok (some t)) :
    ∃ sT sfs tfs, fs.lookup "Spec" = some (.struct sT sfs) ∧
      sfs.lookup "Template" = some (.struct podTemplateSpecType tfs) ∧
      t = ⟨["Spec", "Template"], .struct podTemplateSpecType tfs⟩ := by
  rw [podTemplate_ptr_struct] at hloc
  cases hs : fs.lookup "Spec" with
  | none => simp [hs] at hloc
  | some spec =>
    cases spec with
    | struct sT sfs =>
      cases ht : sfs.lookup "Template" with
      | none => simp [hs, ht] at hloc
      | some tv =>
        cases tv with
        | struct typ tfs0 =>
          by_cases hty : typ = podTemplateSpecType
          · subst hty
            simp [hs, ht] at hloc
            exact ⟨sT, sfs, tfs0, rfl, ht, hloc.symm⟩
          · simp [hs, ht, hty] at hloc
        | _ => simp [hs, ht] at hloc
    | _ => simp [hs] at hloc

/-- An object held in an interface is inspected like the object itself. -/
theorem podTemplate_iface_ptr (p : Option GoValue) :
    podTemplate (.iface (some (.ptr p))) = podTemplate (.ptr p) := rfl

/-- No template is found through a value that is not addressable. -/
theorem podTemplate_iface_iface (d : Option GoValue) :
    podTemplate (.iface (some (.iface d))) = .ok none := by
  cases d with
  | none => simp [podTemplate, ValueOf, Value.CanInterface, Value.Elem, Value.Kind, Value.zero]
  | some z =>
    cases z with
    | struct T fs =>
      cases hs : fs.lookup "Spec" with
      | none => simp [podTemplate, ValueOf, Value.CanInterface, Value.Elem, Value.Kind,
          Value.FieldByName, hs, Value.zero]
      | some spec =>
        cases spec with
        | struct sT sfs =>
          cases ht : sfs.lookup "Template" <;>
          simp [podTemplate, ValueOf, Value.CanInterface, Value.Elem, Value.Kind,
            Value.FieldByName, hs, ht, Value.zero, Value.CanAddr]
        | _ => simp [podTemplate, ValueOf, Value.CanInterface, Value.Elem, Value.Kind,
            Value.FieldByName, hs]
    | _ => simp [podTemplate, ValueOf, Value.CanInterface, Value.Elem, Value.Kind]

/-- Where `podTemplate` finds a template: the object is a non-nil pointer to a struct, or
an interface holding one, and the struct has the member `Spec.Template`. -/
theorem podTemplate_some_shape (obj : GoValue) (t : TemplatePtr)
    (hloc : podTemplate obj = .ok (some t)) :
    ∃ T fs sT sfs tfs, obj.pointee = some (.struct T fs) ∧
      fs.lookup "Spec" = some (.struct sT sfs) ∧
      sfs.lookup "Template" = some (.struct podTemplateSpecType tfs) ∧
      t = ⟨["Spec", "Template"], .struct podTemplateSpecType tfs⟩ := by
  have hptr : ∀ p : Option GoValue, podTemplate (.ptr p) = .ok (some t) →
      ∃ T fs sT sfs tfs, p = some (.struct T fs) ∧
        fs.lookup "Spec" = some (.struct sT sfs) ∧
        sfs.lookup "Template" = some (.struct podTemplateSpecType tfs) ∧
        t = ⟨["Spec", "Template"], .struct podTemplateSpecType tfs⟩ := by
    intro p hp
    cases p with
    | none =>
      simp [podTemplate, ValueOf, Value.CanInterface, Value.Elem, Value.Kind, Value.zero] at hp
    | some s =>
      cases s with
      | struct T fs =>
        obtain ⟨sT, sfs, tfs, h1, h2, h3⟩ := podTemplate_ptr_struct_some T fs t hp
        exact ⟨T, fs, sT, sfs, tfs, rfl, h1, h2, h3⟩
      | _ => simp [podTemplate, ValueOf, Value.CanInterface, Value.Elem, Value.Kind] at hp
  cases obj with
  | basic typ repr =>
    simp [podTemplate, ValueOf, Value.CanInterface, Value.Elem] at hloc
  | struct T fs =>
    simp [podTemplate, ValueOf, Value.CanInterface, Value.Elem] at hloc
  | ptr p =>
    obtain ⟨T, fs, sT, sfs, tfs, rfl, h1, h2, h3⟩ := hptr p hloc
    exact ⟨T, fs, sT, sfs, tfs, rfl, h1, h2, h3⟩
  | iface d =>
    cases d with
    | none => simp [podTemplate, ValueOf, Value.CanInterface, Value.zero] at hloc
    | some x =>
      cases x with
      | basic typ repr =>
        simp [podTemplate, ValueOf, Value.CanInterface, Value.Elem] at hloc
      | struct T fs =>
        simp [podTemplate, ValueOf, Value.CanInterface, Value.Elem] at hloc
      | ptr p =>
        rw [podTemplate_iface_ptr] at hloc
        obtain ⟨T, fs, sT, sfs, tfs, rfl, h1, h2, h3⟩ := hptr p hloc
        exact ⟨T, fs, sT, sfs, tfs, rfl, h1, h2, h3⟩
      | iface d =>
        rw [podTemplate_iface_iface] at hloc
        simp at hloc

/-- The objects with a pointee: a pointer, or an interface holding a pointer. -/
theorem pointee_eq_some (obj s : GoValue) (h : obj.pointee = some s) :
    obj = .ptr (some s) ∨ obj = .iface (some (.ptr (some s))) := by
  cases obj with
  | ptr p =>
    cases p with
    | none => simp [GoValue.pointee] at h
    | some x =>
      simp [GoValue.pointee] at h
      subst h
      exact Or.inl rfl
  | iface d =>
    cases d with
    | none => simp [GoValue.pointee] at h
    | some x =>
      cases x with
      | ptr p =>
        cases p with
        | none => simp [GoValue.pointee] at h
        | some y =>
          simp [GoValue.pointee] at h
          subst h
          exact Or.inr rfl
      | _ => simp [GoValue.pointee] at h
  | _ => simp [GoValue.pointee] at h

/-- Writing through the pointer `podTemplate` returns changes the member `Spec.Template` of
the struct the typed object points to, and nothing else: the struct keeps its type, its
member names and every member but `Spec`, and `Spec` keeps its type, its member names and
every member but `Template`, which holds the value written. -/
theorem storeTemplate_frame (obj x : GoValue) (t : TemplatePtr)
    (hloc : podTemplate obj = .ok (some t)) :
    ∃ T fs sT sfs fs1 sfs1,
      obj.pointee = some (.struct T fs) ∧ fs.lookup "Spec" = some (.struct sT sfs) ∧
      (obj.storeTemplate x).pointee = some (.struct T fs1) ∧
      fs1.lookup "Spec" = some (.struct sT sfs1) ∧
      sfs1.lookup "Template" = some x ∧
      (∀ n, n ≠ "Spec" → fs1.lookup n = fs.lookup n) ∧
      (∀ n, n ≠ "Template" → sfs1.lookup n = sfs.lookup n) ∧
      fs1.map Prod.fst = fs.map Prod.fst ∧ sfs1.map Prod.fst = sfs.map Prod.fst := by
  obtain ⟨T, fs, sT, sfs, tfs, hp, hs, ht, -⟩ := podTemplate_some_shape obj t hloc
  have hstore : (obj.storeTemplate x).pointee
      = some (.struct T (fs.map fun kv => if kv.1 = "Spec" then
          (kv.1, .struct sT (sfs.map fun kv => if kv.1 = "Template" then (kv.1, x) else kv))
          else kv)) := by
    rcases pointee_eq_some obj _ hp with rfl | rfl <;>
      simp [GoValue.storeTemplate, GoValue.withTemplate, GoValue.field, hs, GoValue.setField,
        GoValue.pointee]
  refine ⟨T, fs, sT, sfs,
    fs.map (fun kv => if kv.1 = "Spec" then
      (kv.1, .struct sT (sfs.map fun kv => if kv.1 = "Template" then (kv.1, x) else kv))
      else kv),
    sfs.map (fun kv => if kv.1 = "Template" then (kv.1, x) else kv),
    hp, hs, hstore, ?_, ?_, ?_, ?_, ?_, ?_⟩
  · rw [lookup_map_replace, hs]
    rfl
  · rw [lookup_map_replace, ht]
    rfl
  · intro n hn
    exact lookup_map_replace_ne "Spec" n _ fs hn
  · intro n hn
    exact lookup_map_replace_ne "Template" n _ sfs hn
  · exact map_replace_names "Spec" _ fs
  · exact map_replace_names "Template" _ sfs

/-- The typed view after `storeTemplate` carries the stored template at the place
`podTemplate` addresses. -/
theorem podTemplate_storeTemplate (obj : GoValue) (tfs : List (String × GoValue))
    (t : TemplatePtr) (hloc : podTemplate obj = .ok (some t)) :
    podTemplate (obj.storeTemplate (.struct podTemplateSpecType tfs))
      = .ok (some ⟨["Spec", "Template"], .struct podTemplateSpecType tfs⟩) := by
  obtain ⟨T, fs, sT, sfs, fs1, sfs1, -, -, hp1, hs1, ht1, -⟩ :=
    storeTemplate_frame obj (.struct podTemplateSpecType tfs) t hloc
  have hptr : podTemplate (.ptr (some (.struct T fs1)))
      = .ok (some ⟨["Spec", "Template"], .struct podTemplateSpecType tfs⟩) := by
    rw [podTemplate_ptr_struct, hs1]
    simp only
    rw [ht1]
    simp
  rcases pointee_eq_some _ _ hp1 with h | h
  · rw [h, hptr]
  · rw [h, podTemplate_iface_ptr, hptr]

/-- C4 (as stated) fails: a stateful set of a known kind, decoded without error, whose
template the mutator changes, loses the member `spec.persistentVolumeClaimRetentionPolicy`
of the original document and gains a member `metadata`, both outside the PodTemplate
region: the raw form after the call is the encoding of the typed view, the typed shape has
no member for the former, and the encoder always writes the latter. -/
theorem mutateResourceAs_changed_drops_unknown_member :
    demoBridge.schemeNew (toSchemaGvk (demoBridge.getGvk demoNewerStatefulSet))
      = .ok newStatefulSet ∧
    (mutateResourceAs demoBridge 0 demoNewerStatefulSet).outcome = .returned none ∧
    (mutateResourceAs demoBridge 0 demoNewerStatefulSet).mutateCalls
      = [.struct podTemplateSpecType [("Hostname", .basic "string" "berglas://bucket/secret")]] ∧
    (demoBridge.mutate 0
      (.struct podTemplateSpecType [("Hostname", .basic "string" "berglas://bucket/secret")])).2.2
      = .ok true ∧
    hasRetentionPolicy demoNewerStatefulSet.outsideTemplate = true ∧
    hasRetentionPolicy
      (mutateResourceAs demoBridge 0 demoNewerStatefulSet).resource.outsideTemplate = false ∧
    demoNewerStatefulSet.outsideTemplate.hasKey "metadata" = false ∧
    (mutateResourceAs demoBridge 0 demoNewerStatefulSet).resource.outsideTemplate.hasKey
      "metadata" = true ∧
    (mutateResourceAs demoBridge 0 demoNewerStatefulSet).resource.outsideTemplate
      ≠ demoNewerStatefulSet.outsideTemplate := by
  refine ⟨rfl, rfl, rfl, rfl, rfl, rfl, rfl, rfl, ?_⟩
  intro h
  have h2 := congrArg hasRetentionPolicy h
  revert h2
  decide

/-- C4 (amended): when the mutator returns `changed = true` and the typed view carrying the
mutated template encodes to `data1`, the resource after the call is what `UnmarshalJSON`
makes of `data1`, the encoding of that typed view, and the call returns what
`UnmarshalJSON` returns.  The typed view encoded differs from the view decoded from the raw
form before the call only in its member `Spec.Template`, which holds the mutated template:
every other member of the typed view is preserved.  (Members of the original document that
the typed view does not carry are not.) -/
theorem mutateResourceAs_changed {ρ μ : Type} (env : Bridge ρ μ) (m m1 : μ) (r : ρ)
    (obj₀ obj t1 : GoValue) (data data1 : Json) (t : TemplatePtr)
    (hnew : env.schemeNew (toSchemaGvk (env.getGvk r)) = .ok obj₀)
    (hraw : env.marshalJSON r = .ok data)
    (hdec : env.jsonUnmarshal data obj₀ = .ok obj)
    (hloc : podTemplate obj = .ok (some t))
    (hmut : env.mutate m t.template = (m1, t1, .ok true))
    (henc : env.jsonMarshal (obj.storeTemplate t1) = .ok data1) :
    (mutateResourceAs env m r).resource = (env.unmarshalJSON data1 r).1 ∧
    (mutateResourceAs env m r).outcome = .returned (env.unmarshalJSON data1 r).2 ∧
    (mutateResourceAs env m r).mutateCalls = [t.template] ∧
    (mutateResourceAs env m r).mutator = m1 ∧
    ∃ T fs sT sfs fs1 sfs1,
      obj.pointee = some (.struct T fs) ∧ fs.lookup "Spec" = some (.struct sT sfs) ∧
      sfs.lookup "Template" = some t.template ∧
      (obj.storeTemplate t1).pointee = some (.struct T fs1) ∧
      fs1.lookup "Spec" = some (.struct sT sfs1) ∧
      sfs1.lookup "Template" = some t1 ∧
      (∀ n, n ≠ "Spec" → fs1.lookup n = fs.lookup n) ∧
      (∀ n, n ≠ "Template" → sfs1.lookup n = sfs.lookup n) ∧
      fs1.map Prod.fst = fs.map Prod.fst ∧ sfs1.map Prod.fst = sfs.map Prod.fst := by
  refine ⟨?_, ?_, ?_, ?_, ?_⟩
  · simp [mutateResourceAs, hnew, hraw, hdec, hloc, hmut, henc]
  · simp [mutateResourceAs, hnew, hraw, hdec, hloc, hmut, henc]
  · simp [mutateResourceAs, hnew, hraw, hdec, hloc, hmut, henc]
  · simp [mutateResourceAs, hnew, hraw, hdec, hloc, hmut, henc]
  · obtain ⟨T, fs, sT, sfs, fs1, sfs1, h1, h2, h3, h4, h5, h6, h7, h8, h9⟩ :=
      storeTemplate_frame obj t1 t hloc
    obtain ⟨T2, fs2, sT2, sfs2, tfs2, g1, g2, g3, g4⟩ := podTemplate_some_shape obj t hloc
    rw [h1] at g1
    injection g1 with g1
    injection g1 with gT gfs
    subst gT gfs
    rw [h2] at g2
    injection g2 with g2
    injection g2 with gsT gsfs
    subst gsT gsfs
    refine ⟨T, fs, sT, sfs, fs1, sfs1, h1, h2, ?_, h3, h4, h5, h6, h7, h8, h9⟩
    rw [g3, g4]

/-- A stateful set whose template holds a secret reference: the resource after the call is
the encoding of the typed view with the reference replaced; that typed view is the decoded
one but for the host name in its template. -/
theorem mutateResourceAs_changed_witness :
    (mutateResourceAs demoBridge 0
      (demoStatefulSet [] (.str "berglas://bucket/secret"))).resource = demoInjected ∧
    (mutateResourceAs demoBridge 0
      (demoStatefulSet [] (.str "berglas://bucket/secret"))).outcome = .returned none ∧
    (mutateResourceAs demoBridge 0
      (demoStatefulSet [] (.str "berglas://bucket/secret"))).mutateCalls
      = [.struct podTemplateSpecType [("Hostname", .basic "string" "berglas://bucket/secret")]] ∧
    (mutateResourceAs demoBridge 0
      (demoStatefulSet [] (.str "berglas://bucket/secret"))).mutator = 1 ∧
    (typedStatefulSet "StatefulSet" "apps/v1" "" "" "berglas://bucket/secret" "db").storeTemplate
        (.struct podTemplateSpecType [("Hostname", .basic "string" "s3cr3t")])
      = typedStatefulSet "StatefulSet" "apps/v1" "" "" "s3cr3t" "db" :=
  have h := mutateResourceAs_changed demoBridge 0 1
    (demoStatefulSet [] (.str "berglas://bucket/secret")) newStatefulSet
    (typedStatefulSet "StatefulSet" "apps/v1" "" "" "berglas://bucket/secret" "db")
    (.struct podTemplateSpecType [("Hostname", .basic "string" "s3cr3t")])
    (demoStatefulSet [] (.str "berglas://bucket/secret")) demoInjected
    ⟨["Spec", "Template"],
      .struct podTemplateSpecType [("Hostname", .basic "string" "berglas://bucket/secret")]⟩
    rfl rfl rfl rfl rfl rfl
  ⟨h.1, h.2.1, h.2.2.1, h.2.2.2.1, rfl⟩

/-- On a non-nil pointer to a struct `podTemplate` does not panic; so `mutateResourceAs`
does not panic when the decoder, as `json.Unmarshal` does, hands back the pointer to a
struct it was given: it returns. -/
theorem mutateResourceAs_returns {ρ μ : Type} (env : Bridge ρ μ) (m : μ) (r : ρ)
    (hshape : ∀ data obj₀ obj, env.jsonUnmarshal data obj₀ = .ok obj →
      ∃ T fs, obj = .ptr (some (.struct T fs))) :
    ∃ err, (mutateResourceAs env m r).outcome = .returned err := by
  unfold mutateResourceAs
  split
  · exact ⟨_, rfl⟩
  · split
    · exact ⟨_, rfl⟩
    · split
      · exact ⟨_, rfl⟩
      · rename_i obj hdec
        obtain ⟨T, fs, rfl⟩ := hshape _ _ obj hdec
        rw [podTemplate_ptr_struct]
        split
        · rename_i p hp
          cases hp
        · exact ⟨_, rfl⟩
        · split
          · exact ⟨_, rfl⟩
          · split <;> exact ⟨_, rfl⟩
          · exact ⟨_, rfl⟩

/-! Theorems about `Transform`. -/

/-- The calls of the loop of `Transform`: a prefix of the calls of a complete pass, all but
the last of which returned no error; the loop ends as its last call did; and it makes all
the calls of a complete pass unless it ends otherwise than by returning no error. -/
theorem transformLoop_trace {ρ M μ : Type} (env : Pass ρ M μ) (rs : List Nat) :
    ∀ (m : μ) (w : World ρ M),
      (transformLoop env rs m w).trace.map Prod.fst <+: passCalls rs ∧
      (∀ e ∈ (transformLoop env rs m w).trace.dropLast, e.2 = .returned none) ∧
      (transformLoop env rs m w).outcome
        = ((transformLoop env rs m w).trace.getLast?.map Prod.snd).getD (.returned none) ∧
      ((transformLoop env rs m w).trace.map Prod.fst = passCalls rs ∨
        (transformLoop env rs m w).outcome ≠ .returned none) := by
  induction rs with
  | nil =>
    intro m w
    simp [transformLoop, passCalls]
  | cons r rs ih =>
    intro m w
    rw [transformLoop]
    simp only
    split
    · rename_i hout
      split
      · rename_i m2 w2 err hflush
        simp [passCalls]
      · rename_i m2 w2 hflush
        obtain ⟨h1, h2, h3, h4⟩ := ih m2 w2
        generalize transformLoop env rs m2 w2 = rest at h1 h2 h3 h4
        obtain ⟨w3, m3, tr, out⟩ := rest
        simp only at h1 h2 h3 h4 ⊢
        refine ⟨?_, ?_, ?_, ?_⟩
        · simpa [passCalls, List.prefix_cons_inj] using h1
        · cases tr with
          | nil => simp
          | cons e tr =>
            intro x hx
            simp only [List.dropLast_cons₂, List.mem_cons] at hx
            rcases hx with rfl | rfl | hx
            · rfl
            · rfl
            · exact h2 x hx
        · cases tr with
          | nil => simpa using h3
          | cons e tr => simpa [List.getLast?_cons_cons] using h3
        · rcases h4 with h4 | h4
          · left
            simp [passCalls, h4]
          · right
            exact h4
    · rename_i stop hstop
      refine ⟨?_, ?_, ?_, ?_⟩
      · simp [passCalls, List.prefix_cons_inj]
      · simp
      · simp
      · right
        intro h
        exact hstop h

/-- The loop of `Transform` makes the calls `mutate r1`, `flush`, `mutate r2`, `flush`,
... as the specification words them: its mutator, resources and calls are those of
`runCalls` on that sequence. -/
theorem transformLoop_runCalls {ρ M μ : Type} (env : Pass ρ M μ) (rs : List Nat) :
    ∀ (m : μ) (w : World ρ M),
      runCalls env (passCalls rs) (m, w)
        = (((transformLoop env rs m w).mutator, (transformLoop env rs m w).world),
            (transformLoop env rs m w).trace) := by
  induction rs with
  | nil =>
    intro m w
    rfl
  | cons r rs ih =>
    intro m w
    rw [transformLoop]
    simp only [passCalls, runCalls, callEffect]
    generalize mutateResourceAs env.toBridge m (w.heap r) = res
    obtain ⟨r1, m1, calls, out⟩ := res
    simp only
    cases out with
    | panicked p => simp
    | returned err =>
      cases err with
      | some e => simp
      | none =>
        simp only [if_true]
        generalize env.flushSecrets m1 { heap := Function.update w.heap r r1, resmap := w.resmap }
          = f
        obtain ⟨m2, w2, e⟩ := f
        cases e with
        | some e => simp
        | none =>
          simp only [if_true]
          rw [ih m2 w2]

/-- C6: after creating the mutator, `Transform` makes the calls `mutate r1`, `flush`,
`mutate r2`, `flush`, ... over the resources listed at the start, in order, each on the
mutator and the resources the calls before it left, cut off immediately after the first
call that does not return without an error: the calls it made with their results, the
mutator and the resources it leaves are those of `runCalls` on that sequence, started from
the new mutator.  So the calls are a prefix of the sequence in which every call but the
last returned no error, `Transform` ends as the last call did (it returns no error when
there is no call), and the sequence is complete unless `Transform` ends otherwise than by
returning no error. -/
theorem Transform_calls {ρ M μ : Type} (env : Pass ρ M μ) (p : plugin) (w : World ρ M) :
    (∃ opts, (Transform env p w).trace.head? = some (.newMutator p.h opts, .returned none) ∧
      runCalls env (passCalls (env.resources w.resmap)) (env.newMutator p.h opts, w)
        = (((Transform env p w).mutator, (Transform env p w).world),
            (Transform env p w).trace.tail)) ∧
    (Transform env p w).trace.tail.map Prod.fst <+: passCalls (env.resources w.resmap) ∧
    (∀ e ∈ (Transform env p w).trace.tail.dropLast, e.2 = .returned none) ∧
    (Transform env p w).outcome = lastOutcome (Transform env p w).trace.tail ∧
    ((Transform env p w).trace.tail.map Prod.fst = passCalls (env.resources w.resmap) ∨
      (Transform env p w).outcome ≠ .returned none) := by
  refine ⟨⟨_, rfl, ?_⟩, ?_⟩
  · exact transformLoop_runCalls env (env.resources w.resmap) _ w
  · exact transformLoop_trace env (env.resources w.resmap) _ w

/-- A pass over four resources: the first is mutated, written back and flushed, the second
(of unknown kind) is skipped and flushed, the mutation of the third fails and ends the
pass, after two calls of the mutator; the fourth is never reached. -/
theorem Transform_calls_example :
    (Transform demoPass ⟨none, none, false⟩ ⟨demoHeap, [0, 1, 2, 3]⟩).trace =
      [(.newMutator none none, .returned none),
       (.mutate 0, .returned none), (.flush, .returned none),
       (.mutate 1, .returned none), (.flush, .returned none),
       (.mutate 2, .returned (some "invalid berglas reference"))] ∧
    (Transform demoPass ⟨none, none, false⟩ ⟨demoHeap, [0, 1, 2, 3]⟩).outcome
      = .returned (some "invalid berglas reference") ∧
    (Transform demoPass ⟨none, none, false⟩ ⟨demoHeap, [0, 1, 2, 3]⟩).mutator = 2 ∧
    (Transform demoPass ⟨none, none, false⟩ ⟨demoHeap, [0, 1, 2, 3]⟩).world.heap 0
      = demoInjected := by
  refine ⟨rfl, rfl, rfl, rfl⟩

/-- C8: the generator options `Transform` hands to `berglas.NewMutator` are absent whenever
`GenerateSecrets` is false, the configured `GeneratorOptions` when `GenerateSecrets` is
true and they are present, and the empty default when `GenerateSecrets` is true and they
are absent; the loop runs with the mutator made from them. -/
theorem Transform_generator_options {ρ M μ : Type} (env : Pass ρ M μ) (p : plugin)
    (w : World ρ M) :
    (Transform env p w).trace.head?
      = some (.newMutator p.h (specifiedOptions p), .returned none) ∧
    (Transform env p w).trace.tail
      = (transformLoop env (env.resources w.resmap)
          (env.newMutator p.h (specifiedOptions p)) w).trace ∧
    (specifiedOptions ⟨p.h, p.GeneratorOptions, false⟩ = none) ∧
    (∀ o, specifiedOptions ⟨p.h, some o, true⟩ = some o) ∧
    (specifiedOptions ⟨p.h, none, true⟩ = some {}) := by
  obtain ⟨h, o, g⟩ := p
  cases g <;> cases o <;> simp [Transform, specifiedOptions]

/-! Theorems about `Config`. -/

/-- Decoding a member of the configuration never touches `GenerateSecrets`. -/
theorem unmarshalMember_GenerateSecrets (env : ConfigEnv) (acc : plugin × Option Error)
    (kv : String × Json) :
    (unmarshalMember env acc kv).1.GenerateSecrets = acc.1.GenerateSecrets := by
  unfold unmarshalMember
  have hno : plugin.GenerateSecretsTag.binds "GenerateSecrets" kv.1 = false := by
    simp [FieldTag.binds, plugin.GenerateSecretsTag]
  rw [hno]
  split
  · split <;> rfl
  · simp

/-- Whatever the configuration says, `Config` leaves `GenerateSecrets` as it was. -/
theorem Config_keeps_GenerateSecrets (env : ConfigEnv) (p : plugin) (h : PluginHelpers)
    (c : String) : (Config env p h c).1.GenerateSecrets = p.GenerateSecrets := by
  have hfold : ∀ (ms : List (String × Json)) (acc : plugin × Option Error),
      (ms.foldl (unmarshalMember env) acc).1.GenerateSecrets = acc.1.GenerateSecrets := by
    intro ms
    induction ms with
    | nil => intro acc; rfl
    | cons kv ms ih =>
      intro acc
      rw [List.foldl_cons, ih, unmarshalMember_GenerateSecrets]
  unfold Config
  simp only
  split
  · rfl
  · rw [hfold]
  · rfl
  · rfl

/-- C9 (the code at the failing input): configuring a fresh plugin with the document
`generateSecrets: true` succeeds and leaves `GenerateSecrets` false, and the following
`Transform` hands absent generator options to the mutator. -/
theorem Config_generateSecrets_ignored :
    (Config demoConfigEnv ⟨none, none, false⟩ ⟨0⟩ "generateSecrets: true").2 = none ∧
    (Config demoConfigEnv ⟨none, none, false⟩ ⟨0⟩ "generateSecrets: true").1.GenerateSecrets
      = false ∧
    (Transform demoPass
        (Config demoConfigEnv ⟨none, none, false⟩ ⟨0⟩ "generateSecrets: true").1
        ⟨demoHeap, [0]⟩).trace.head?
      = some (.newMutator (some ⟨0⟩) none, .returned none) := by
  refine ⟨rfl, rfl, rfl⟩

/-! Theorems about the "remove generator" command. -/

/-- The inner loop of `globPatterns` on a well-formed pattern: it succeeds and appends the
generators that match the pattern. -/
theorem globGenerators_ok (Match : String → String → Except Error Bool) (pattern : String)
    (hwf : ∀ g, ∃ b, Match pattern g = .ok b) (gs : List String) :
    ∀ acc, ∃ res, globGenerators Match pattern gs acc = .ok res ∧
      ∀ g, g ∈ res ↔ g ∈ acc ∨ (g ∈ gs ∧ Match pattern g = .ok true) := by
  induction gs with
  | nil =>
    intro acc
    exact ⟨acc, rfl, by simp⟩
  | cons x gs ih =>
    intro acc
    obtain ⟨b, hb⟩ := hwf x
    cases b with
    | false =>
      obtain ⟨res, hres, hmem⟩ := ih acc
      refine ⟨res, by simp [globGenerators, hb, hres], ?_⟩
      intro g
      rw [hmem]
      constructor
      · rintro (h | ⟨h, hm⟩)
        · exact Or.inl h
        · exact Or.inr ⟨List.mem_cons_of_mem _ h, hm⟩
      · rintro (h | ⟨h, hm⟩)
        · exact Or.inl h
        · rcases List.mem_cons.1 h with rfl | h
          · rw [hb] at hm
            cases hm
          · exact Or.inr ⟨h, hm⟩
    | true =>
      obtain ⟨res, hres, hmem⟩ := ih (acc ++ [x])
      refine ⟨res, by simp [globGenerators, hb, hres], ?_⟩
      intro g
      rw [hmem]
      constructor
      · rintro (h | ⟨h, hm⟩)
        · rcases List.mem_append.1 h with h | h
          · exact Or.inl h
          · rw [List.mem_singleton] at h
            subst h
            exact Or.inr ⟨List.mem_cons_self _ _, hb⟩
        · exact Or.inr ⟨List.mem_cons_of_mem _ h, hm⟩
      · rintro (h | ⟨h, hm⟩)
        · exact Or.inl (List.mem_append_left _ h)
        · rcases List.mem_cons.1 h with rfl | h
          · exact Or.inl (List.mem_append_right _ (List.mem_singleton_self _))
          · exact Or.inr ⟨h, hm⟩

/-- The outer loop of `globPatterns` on well-formed patterns: it succeeds and appends the
generators that match some pattern. -/
theorem globLoop_ok (Match : String → String → Except Error Bool) (gs : List String)
    (ps : List String) (hwf : ∀ p ∈ ps, ∀ g, ∃ b, Match p g = .ok b) :
    ∀ acc, ∃ res, globLoop Match gs ps acc = .ok res ∧
      ∀ g, g ∈ res ↔ g ∈ acc ∨ (g ∈ gs ∧ matchesSome Match ps g = true) := by
  induction ps with
  | nil =>
    intro acc
    exact ⟨acc, rfl, by simp [matchesSome]⟩
  | cons p ps ih =>
    intro acc
    obtain ⟨r1, hr1, hm1⟩ :=
      globGenerators_ok Match p (hwf p (List.mem_cons_self _ _)) gs acc
    obtain ⟨res, hres, hmem⟩ := ih (fun q hq => hwf q (List.mem_cons_of_mem _ hq)) r1
    refine ⟨res, by simp [globLoop, hr1, hres], ?_⟩
    intro g
    rw [hmem, hm1]
    have hsome : matchesSome Match (p :: ps) g = true ↔
        (Match p g = .ok true ∨ matchesSome Match ps g = true) := by
      unfold matchesSome
      rw [List.any_cons, Bool.or_eq_true]
      constructor
      · rintro (h | h)
        · left
          split at h
          · assumption
          · cases h
        · exact Or.inr h
      · rintro (h | h)
        · left
          rw [h]
        · exact Or.inr h
    rw [hsome]
    tauto

/-- C10: when the kustomization file is read as manifest `m` and every pattern is
well formed (`filepath.Match` reports no error on it), then, if some generator of `m`
matches some pattern, `RunRemoveGenerator` passes to `Write` the manifest whose generator
list is the generators of `m` matching no pattern, in their original order, with all other
fields as read, and returns what `Write` returns; if no generator matches any pattern, it
writes nothing, leaves the file system alone and returns no error. -/
theorem RunRemoveGenerator_removes_matching {F K α : Type} (env : EditEnv F K α)
    (o : removeGeneratorOptions) (fSys : F) (mf mf1 : K) (m : Kustomization α)
    (hnew : env.NewKustomizationFile fSys = .ok mf)
    (hread : env.Read mf fSys = .ok (m, mf1))
    (hwf : ∀ p ∈ o.generatorFilePaths, ∀ g, ∃ b, env.Match p g = .ok b)
    (hin : ∀ s l, env.StringInSlice s l = true ↔ s ∈ l) :
    ((∃ g ∈ m.Generators, matchesSome env.Match o.generatorFilePaths g = true) →
      (o.RunRemoveGenerator env fSys).written
        = some ⟨m.Generators.filter
            (fun g => !matchesSome env.Match o.generatorFilePaths g), m.others⟩ ∧
      (o.RunRemoveGenerator env fSys).fSys
        = (env.Write mf1 ⟨m.Generators.filter
            (fun g => !matchesSome env.Match o.generatorFilePaths g), m.others⟩ fSys).1 ∧
      (o.RunRemoveGenerator env fSys).err
        = (env.Write mf1 ⟨m.Generators.filter
            (fun g => !matchesSome env.Match o.generatorFilePaths g), m.others⟩ fSys).2) ∧
    ((¬ ∃ g ∈ m.Generators, matchesSome env.Match o.generatorFilePaths g = true) →
      (o.RunRemoveGenerator env fSys).written = none ∧
      (o.RunRemoveGenerator env fSys).fSys = fSys ∧
      (o.RunRemoveGenerator env fSys).err = none) := by
  obtain ⟨res, hres, hmem⟩ :=
    globLoop_ok env.Match m.Generators o.generatorFilePaths hwf []
  have hmem2 : ∀ g, g ∈ res ↔
      (g ∈ m.Generators ∧ matchesSome env.Match o.generatorFilePaths g = true) := by
    intro g
    rw [hmem]
    simp
  have hfilter : m.Generators.filter (fun g => !env.StringInSlice g res)
      = m.Generators.filter (fun g => !matchesSome env.Match o.generatorFilePaths g) := by
    apply List.filter_congr
    intro g hg
    by_cases hms : matchesSome env.Match o.generatorFilePaths g = true
    · have : env.StringInSlice g res = true := (hin g res).2 ((hmem2 g).2 ⟨hg, hms⟩)
      rw [this, hms]
    · have hns : ¬ env.StringInSlice g res = true := fun h =>
        hms ((hmem2 g).1 ((hin g res).1 h)).2
      rw [Bool.not_eq_true] at hms hns
      rw [hms, hns]
  have hrun : o.RunRemoveGenerator env fSys =
      if res.length = 0 then ⟨fSys, none, none⟩
      else
        ⟨(env.Write mf1 ⟨m.Generators.filter
            (fun g => !matchesSome env.Match o.generatorFilePaths g), m.others⟩ fSys).1,
          some ⟨m.Generators.filter
            (fun g => !matchesSome env.Match o.generatorFilePaths g), m.others⟩,
          (env.Write mf1 ⟨m.Generators.filter
            (fun g => !matchesSome env.Match o.generatorFilePaths g), m.others⟩ fSys).2⟩ := by
    simp only [removeGeneratorOptions.RunRemoveGenerator, hnew, hread, globPatterns, hres,
      hfilter]
  rw [hrun]
  constructor
  · rintro ⟨g, hg, hms⟩
    have hne : res.length ≠ 0 := by
      intro h0
      have hnil : res = [] := List.length_eq_zero.1 h0
      have hgm : g ∈ res := (hmem2 g).2 ⟨hg, hms⟩
      rw [hnil] at hgm
      cases hgm
    rw [if_neg hne]
    exact ⟨rfl, rfl, rfl⟩
  · intro hno
    have h0 : res.length = 0 := by
      rw [List.length_eq_zero]
      apply List.eq_nil_iff_forall_not_mem.2
      intro g hg
      exact hno ⟨g, ((hmem2 g).1 hg).1, ((hmem2 g).1 hg).2⟩
    rw [if_pos h0]
    exact ⟨rfl, rfl, rfl⟩

/-- Removing `b.yaml` and `*` removes every generator; removing `b.yaml` keeps the other
generators in order; asking to remove `z.yaml` writes nothing. -/
theorem RunRemoveGenerator_removes_matching_witness :
    ((removeGeneratorOptions.mk ["b.yaml", "*"]).RunRemoveGenerator demoEdit
        ["a.yaml", "b.yaml"]).written = some ⟨[], ()⟩ ∧
    ((removeGeneratorOptions.mk ["b.yaml"]).RunRemoveGenerator demoEdit
        ["a.yaml", "b.yaml", "c.yaml", "b.yaml"]).written = some ⟨["a.yaml", "c.yaml"], ()⟩ ∧
    ((removeGeneratorOptions.mk ["b.yaml"]).RunRemoveGenerator demoEdit
        ["a.yaml", "b.yaml", "c.yaml", "b.yaml"]).fSys = ["a.yaml", "c.yaml"] ∧
    ((removeGeneratorOptions.mk ["z.yaml"]).RunRemoveGenerator demoEdit
        ["a.yaml", "b.yaml"]).written = none ∧
    ((removeGeneratorOptions.mk ["z.yaml"]).RunRemoveGenerator demoEdit
        ["a.yaml", "b.yaml"]).fSys = ["a.yaml", "b.yaml"] ∧
    ((removeGeneratorOptions.mk ["z.yaml"]).RunRemoveGenerator demoEdit
        ["a.yaml", "b.yaml"]).err = none :=
  have hin : ∀ s l, demoEdit.StringInSlice s l = true ↔ s ∈ l := by
    intro s l
    simp [demoEdit]
  have hwf : ∀ (ps : List String), "[" ∉ ps →
      ∀ p ∈ ps, ∀ g, ∃ b, demoEdit.Match p g = .ok b := by
    intro ps hps p hp g
    have hp2 : p ≠ "[" := fun h => hps (h ▸ hp)
    by_cases hstar : p = "*"
    · exact ⟨true, by simp [demoEdit, demoMatch, hstar]⟩
    · exact ⟨decide (p = g), by simp [demoEdit, demoMatch, hp2, hstar]⟩
  have h1 := (RunRemoveGenerator_removes_matching demoEdit ⟨["b.yaml", "*"]⟩
    ["a.yaml", "b.yaml"] () () ⟨["a.yaml", "b.yaml"], ()⟩ rfl rfl
    (hwf _ (by decide)) hin).1 ⟨"a.yaml", by decide, by decide⟩
  have h2 := (RunRemoveGenerator_removes_matching demoEdit ⟨["b.yaml"]⟩
    ["a.yaml", "b.yaml", "c.yaml", "b.yaml"] () ()
    ⟨["a.yaml", "b.yaml", "c.yaml", "b.yaml"], ()⟩ rfl rfl
    (hwf _ (by decide)) hin).1 ⟨"b.yaml", by decide, by decide⟩
  have h3 := (RunRemoveGenerator_removes_matching demoEdit ⟨["z.yaml"]⟩
    ["a.yaml", "b.yaml"] () () ⟨["a.yaml", "b.yaml"], ()⟩ rfl rfl
    (hwf _ (by decide)) hin).2 (by decide)
  ⟨h1.1, h2.1, h2.2.1, h3.1, h3.2.1, h3.2.2⟩

end Konjure
